import Mathlib

/-!
Verification of the energy-trading decision engine of the `c4e-hackathon-agent`
repository.

The embedding below translates `src/decisions/trading.py` and the request
handler of `src/agents/manager.py` into Lean.  Real-valued quantities are
modelled as rationals.  The two irrational numeric primitives used by the
source (`np.exp`, used only for the storage-urgency factor, and the square
root inside `np.std`) are taken as explicit function parameters `expFn` and
`sqrtFn`; every theorem below either holds for all choices of these
parameters or states the needed facts about them (such as `sqrtFn 0 = 0`,
which holds for the real square root) as hypotheses.  Python's
`float('inf')` sentinel for "no upcoming spike" is modelled by `Option ℕ`.
The pandas price `DataFrame` (indexed by hour-range labels such as
`"13:00 - 14:00"`) is modelled as an association list from those labels to
price entries, and the `KeyError` fallback of the source is the `none`
branch of the lookup.
-/

namespace EnergyAgent

/-- One row of the grid price table: the `Purchase` and `Sale` columns of
`grid_prices.csv` for one hour range. -/
structure PriceEntry where
  purchase : ℚ
  sale : ℚ
deriving DecidableEq

/-- The grid price table: an association list from hour-range labels to price
entries, modelling the pandas `DataFrame` produced by `load_grid_prices`. -/
abbrev GridPrices := List (String × PriceEntry)

/-- An upcoming price spike, as built inline in `decide_energy_distribution`
(trading.py lines 100-107): the dict with keys `hour`, `price`, `hours_away`. -/
structure SpikeEvent where
  hour : ℤ
  price : ℚ
  hours_away : ℕ
deriving DecidableEq

/-- Zero-padded two-digit decimal rendering of a number below 100, as produced
by the Python format specifier `02d`. -/
def pad2 (n : ℕ) : String :=
  if n < 10 then "0" ++ toString n else toString n

/-- `parse_hour_range_from_int` (trading.py lines 21-27): normalize the hour by
`mod 24` and render the CSV index label, e.g. `"13:00 - 14:00"`. -/
def parse_hour_range_from_int (hour : ℤ) : String :=
  let h : ℕ := (hour % 24).toNat
  let start := pad2 h ++ ":00"
  let stop := pad2 ((h + 1) % 24) ++ ":00"
  start ++ " - " ++ stop

/-- `get_grid_prices_for_hour` (trading.py lines 29-40): look the normalized
hour up in the table; on a `KeyError` (modelled by a failed lookup) fall back
to purchase `0.5` and sale `0.25`.  The Python function also logs the miss,
a side effect outside this embedding; it never raises. -/
def get_grid_prices_for_hour (grid_prices : GridPrices) (hour : ℤ) : PriceEntry :=
  match grid_prices.lookup (parse_hour_range_from_int hour) with
  | some p => p
  | none => ⟨1/2, 1/4⟩

/-- `np.mean` on a list of rationals. -/
def listMean (xs : List ℚ) : ℚ := xs.sum / xs.length

/-- The population variance used inside `np.std` (the default `ddof=0`). -/
def listVariance (xs : List ℚ) : ℚ :=
  ((xs.map fun x => (x - listMean xs) ^ 2).sum) / xs.length

/-- `np.std`: the square root (given as `sqrtFn`) of the population variance. -/
def listStd (sqrtFn : ℚ → ℚ) (xs : List ℚ) : ℚ := sqrtFn (listVariance xs)

/-- `np.percentile(xs, 75)` with the default linear interpolation between
order statistics: the value at fractional position `0.75 * (n - 1)` of the
ascending sort. -/
def percentile75 (xs : List ℚ) : ℚ :=
  let s := List.insertionSort (· ≤ ·) xs
  let n := s.length
  let pos : ℚ := 3 * ((n : ℚ) - 1) / 4
  let i : ℕ := (3 * (n - 1)) / 4
  let frac : ℚ := pos - (i : ℚ)
  s.getD i 0 + frac * (s.getD (i + 1) (s.getD i 0) - s.getD i 0)

/-- `all_purchase_prices` (trading.py lines 82-84): the purchase prices of all
24 hours, fetched through `get_grid_prices_for_hour`. -/
def allPurchasePrices (gp : GridPrices) : List ℚ :=
  (List.range 24).map fun (h : ℕ) => (get_grid_prices_for_hour gp (h : ℤ)).purchase

/-- `all_sale_prices` (trading.py lines 82-85). -/
def allSalePrices (gp : GridPrices) : List ℚ :=
  (List.range 24).map fun (h : ℕ) => (get_grid_prices_for_hour gp (h : ℤ)).sale

/-- `purchase_spike_threshold` (trading.py line 93): mean plus one population
standard deviation of the 24 purchase prices. -/
def purchaseSpikeThreshold (sqrtFn : ℚ → ℚ) (gp : GridPrices) : ℚ :=
  listMean (allPurchasePrices gp) + listStd sqrtFn (allPurchasePrices gp)

/-- `upcoming_spikes` (trading.py lines 96-107): scan the next
`look_ahead_hours` hours (wrapping mod 24, starting one hour after `hour`) and
collect, in forecast order, each hour whose purchase price strictly exceeds
the spike threshold, with its 1-based offset as `hours_away`. -/
def upcomingSpikes (gp : GridPrices) (hour : ℤ) (look_ahead_hours : ℕ)
    (threshold : ℚ) : List SpikeEvent :=
  (List.range look_ahead_hours).filterMap fun i =>
    let away : ℕ := i + 1
    let h : ℤ := (hour + (away : ℤ)) % 24
    let p := get_grid_prices_for_hour gp h
    if threshold < p.purchase then some ⟨h, p.purchase, away⟩ else none

/-- `hours_to_next_spike` (trading.py lines 110-112): the `hours_away` of the
first upcoming spike; `none` models Python's `float('inf')`. -/
def hoursToNextSpike (spikes : List SpikeEvent) : Option ℕ :=
  spikes.head?.map SpikeEvent.hours_away

/-- `x < k` where `x` is a possibly-infinite hour count (`none` = infinity). -/
def ltOpt (o : Option ℕ) (k : ℕ) : Bool :=
  match o with
  | some h => decide (h < k)
  | none => false

/-- `x > k` where `x` is a possibly-infinite hour count (`none` = infinity). -/
def gtOpt (o : Option ℕ) (k : ℕ) : Bool :=
  match o with
  | some h => decide (k < h)
  | none => true

/-- `upcoming_good_sell_hours` (trading.py lines 115-119): the hours of the
look-ahead window whose sale price strictly exceeds the 75th percentile of
sale prices.  (The source indexes `all_prices` by the wrapped hour value,
which is the same as fetching that hour's prices.) -/
def goodSellHours (gp : GridPrices) (hour : ℤ) (look_ahead_hours : ℕ)
    (threshold : ℚ) : List ℤ :=
  ((List.range look_ahead_hours).map fun (i : ℕ) => (hour + ((i : ℤ) + 1)) % 24).filter
    fun h => decide (threshold < (get_grid_prices_for_hour gp h).sale)

/-- `calculate_proactive_buying` (trading.py lines 226-312), verbatim: no-op
without upcoming spikes, with less than 1 kWh of free storage, or with a price
advantage of at most 5%; otherwise buy-to-store an amount scaled by the time
factor, the spike/current price ratio, the price advantage and the free
capacity, capped by the free capacity and then by half of it. -/
def calculate_proactive_buying (current_storage max_storage current_price mean_price : ℚ)
    (upcoming_spikes : List SpikeEvent) (current_to_storage : ℚ) : ℚ × ℚ :=
  match upcoming_spikes with
  | [] => (0, 0)
  | next_spike :: _ =>
    let available_storage := max_storage - current_storage - current_to_storage
    if available_storage < 1 then (0, 0)
    else
      let price_advantage := mean_price - current_price
      let price_advantage_ratio := price_advantage / mean_price
      if price_advantage_ratio ≤ 5/100 then (0, 0)
      else
        let hours_to_spike := next_spike.hours_away
        let spike_price := next_spike.price
        let spike_to_current_ratio := spike_price / current_price
        let time_factor : ℚ :=
          if hours_to_spike < 2 ∨ 12 < hours_to_spike then 3/10
          else 1 - |(hours_to_spike : ℚ) - 7| / 5
        let price_factor := min 1 (spike_to_current_ratio / 2)
        let buying_factor := time_factor * price_factor * price_advantage_ratio
        let scaled_amount := 5 * buying_factor * spike_to_current_ratio
        let capacity_factor := min 1 (available_storage / 20)
        let extra_energy := min (scaled_amount * capacity_factor) available_storage
        let extra_capped := min extra_energy (available_storage * (1/2))
        (extra_capped, extra_capped)

/-- `should_prioritize_storage` (trading.py lines 135-155): the storage
urgency (an exponential decay in the distance to the next spike, or the base
urgency `0.1` with no spike in sight), the resulting target storage level and
storage deficit, and the three-way prioritization condition. -/
def should_prioritize_storage (expFn : ℚ → ℚ)
    (current_storage max_storage p2p_price grid_sale_price : ℚ)
    (hours_to_next_spike : Option ℕ) (upcoming_good_sell_hours : List ℤ) : Bool :=
  let storage_urgency : ℚ :=
    match hours_to_next_spike with
    | some h => expFn (-(1/10) * (h : ℚ))
    | none => 1/10
  let target_storage_percentage := min (9/10) (1/2 + storage_urgency)
  let target_storage_level := max_storage * target_storage_percentage
  let storage_deficit := max 0 (target_storage_level - current_storage)
  (decide (0 < storage_deficit) && ltOpt hours_to_next_spike 12) ||
    decide (p2p_price < grid_sale_price * (9/10)) ||
    (decide (0 < upcoming_good_sell_hours.length) && decide (0 < storage_deficit))

/-- `should_use_storage` (trading.py lines 174-178): draw from storage when
the current hour is a spike, no spike is coming within 6 hours, or storage is
over 80% full. -/
def should_use_storage
    (current_storage max_storage grid_purchase_price purchase_spike_threshold : ℚ)
    (hours_to_next_spike : Option ℕ) : Bool :=
  decide (purchase_spike_threshold < grid_purchase_price) ||
    gtOpt hours_to_next_spike 6 ||
    decide ((8/10) * max_storage < current_storage)

/-- The storage fill of the surplus case (trading.py lines 157-160):
`min(available_surplus, storage_capacity_left)` when storage is prioritized
and capacity remains, else nothing. -/
def surplus_store (energy_balance storage_capacity_left : ℚ)
    (prioritize : Bool) : ℚ :=
  if prioritize && decide (0 < storage_capacity_left) then
    min energy_balance storage_capacity_left
  else 0

/-- Case 1 of the allocation policy, energy surplus (trading.py lines
131-164): store if prioritized, then sell any remaining surplus. -/
def surplus_branch (energy_balance storage_capacity_left : ℚ)
    (prioritize : Bool) : ℚ × ℚ × ℚ × ℚ :=
  let energy_to_storage := surplus_store energy_balance storage_capacity_left prioritize
  let available_surplus := energy_balance - energy_to_storage
  let sell_to_grid := if 0 < available_surplus then available_surplus else 0
  (energy_to_storage, sell_to_grid, 0, 0)

/-- The storage draw of the deficit case (trading.py lines 180-184): capped
by all of storage during a spike and by half of it otherwise. -/
def deficit_take (energy_needed current_storage : ℚ)
    (is_current_price_spike use_storage : Bool) : ℚ :=
  if use_storage && decide (0 < current_storage) then
    min (if is_current_price_spike then current_storage else current_storage * (1/2))
      energy_needed
  else 0

/-- The grid purchase of the deficit case (trading.py lines 187-203),
returned as `(energy_to_storage, buy_from_grid)`: buy the remaining need,
and when the current price is below 80% of the mean with a spike within 12
hours and spare capacity, buy `min(space, price_advantage_ratio * 10)` extra
for storage. -/
def deficit_store_buy
    (energy_still_needed current_storage max_storage grid_purchase_price
      mean_purchase_price : ℚ) (hours_to_next_spike : Option ℕ) : ℚ × ℚ :=
  if 0 < energy_still_needed then
    let storage_space_available := max_storage - current_storage
    if decide (grid_purchase_price < mean_purchase_price * (8/10)) &&
        ltOpt hours_to_next_spike 12 && decide (0 < storage_space_available) then
      let price_advantage_ratio :=
        (mean_purchase_price - grid_purchase_price) / mean_purchase_price
      let extra_buy := min storage_space_available (price_advantage_ratio * 10)
      (extra_buy, energy_still_needed + extra_buy)
    else (0, energy_still_needed)
  else (0, 0)

/-- Case 2 of the allocation policy, energy deficit (trading.py lines
166-203). -/
def deficit_branch
    (energy_needed current_storage max_storage grid_purchase_price mean_purchase_price : ℚ)
    (is_current_price_spike use_storage : Bool)
    (hours_to_next_spike : Option ℕ) : ℚ × ℚ × ℚ × ℚ :=
  let take_from_storage :=
    deficit_take energy_needed current_storage is_current_price_spike use_storage
  let energy_still_needed := energy_needed - take_from_storage
  let store_buy := deficit_store_buy energy_still_needed current_storage max_storage
    grid_purchase_price mean_purchase_price hours_to_next_spike
  (store_buy.1, 0, store_buy.2, take_from_storage)

/-- The allocation policy of `decide_energy_distribution` (trading.py lines
121-203): dispatch on the sign of the energy balance into the surplus or
deficit branch, given the current prices, price statistics and forecast
context. -/
def decision_core (expFn : ℚ → ℚ)
    (production consumption current_storage max_storage p2p_price : ℚ)
    (grid_purchase_price grid_sale_price mean_purchase_price purchase_spike_threshold : ℚ)
    (hours_to_next_spike : Option ℕ) (upcoming_good_sell_hours : List ℤ) :
    ℚ × ℚ × ℚ × ℚ :=
  let energy_balance := production - consumption
  if 0 < energy_balance then
    surplus_branch energy_balance (max_storage - current_storage)
      (should_prioritize_storage expFn current_storage max_storage p2p_price
        grid_sale_price hours_to_next_spike upcoming_good_sell_hours)
  else
    deficit_branch (-energy_balance) current_storage max_storage grid_purchase_price
      mean_purchase_price
      (decide (purchase_spike_threshold < grid_purchase_price))
      (should_use_storage current_storage max_storage grid_purchase_price
        purchase_spike_threshold hours_to_next_spike)
      hours_to_next_spike

/-- The allocation policy applied to the statistics and forecast context built
from the price table (trading.py lines 76-119 feeding lines 121-203). -/
def coreOf (expFn sqrtFn : ℚ → ℚ)
    (production consumption current_storage max_storage : ℚ) (gp : GridPrices)
    (hour : ℤ) (p2p_price : ℚ) (look_ahead_hours : ℕ) : ℚ × ℚ × ℚ × ℚ :=
  decision_core expFn production consumption current_storage max_storage p2p_price
    (get_grid_prices_for_hour gp hour).purchase
    (get_grid_prices_for_hour gp hour).sale
    (listMean (allPurchasePrices gp))
    (purchaseSpikeThreshold sqrtFn gp)
    (hoursToNextSpike (upcomingSpikes gp hour look_ahead_hours (purchaseSpikeThreshold sqrtFn gp)))
    (goodSellHours gp hour look_ahead_hours (percentile75 (allSalePrices gp)))

/-- The proactive-buying amendment step of `decide_energy_distribution`
(trading.py lines 205-216): if enabled, `calculate_proactive_buying` on the
storage amount already committed, else no extra. -/
def extraOf (sqrtFn : ℚ → ℚ) (current_storage max_storage : ℚ) (gp : GridPrices)
    (hour : ℤ) (look_ahead_hours : ℕ) (enable_proactive_buying : Bool)
    (current_to_storage : ℚ) : ℚ × ℚ :=
  if enable_proactive_buying then
    calculate_proactive_buying current_storage max_storage
      (get_grid_prices_for_hour gp hour).purchase
      (listMean (allPurchasePrices gp))
      (upcomingSpikes gp hour look_ahead_hours (purchaseSpikeThreshold sqrtFn gp))
      current_to_storage
  else (0, 0)

/-- The four quantities of `decide_energy_distribution` just before the final
non-negativity clamps of trading.py lines 218-222: the base allocation with
the proactive extra added to `energy_to_storage` and `buy_from_grid`
(lines 215-216).  The extra pair is `(extra_grid_buy, extra_storage)`. -/
def decisionPre (expFn sqrtFn : ℚ → ℚ)
    (production consumption current_storage max_storage : ℚ) (gp : GridPrices)
    (hour : ℤ) (p2p_price : ℚ) (look_ahead_hours : ℕ)
    (enable_proactive_buying : Bool) : ℚ × ℚ × ℚ × ℚ :=
  let base := coreOf expFn sqrtFn production consumption current_storage max_storage
    gp hour p2p_price look_ahead_hours
  let extra := extraOf sqrtFn current_storage max_storage gp hour look_ahead_hours
    enable_proactive_buying base.1
  (base.1 + extra.2, base.2.1, base.2.2.1 + extra.1, base.2.2.2)

/-- `decide_energy_distribution` (trading.py lines 42-224): the full decision,
returning `(energy_to_storage, sell_to_grid, buy_from_grid, take_from_storage)`
with each component clamped to be non-negative (lines 218-222). -/
def decide_energy_distribution (expFn sqrtFn : ℚ → ℚ)
    (production consumption current_storage max_storage : ℚ) (gp : GridPrices)
    (hour : ℤ) (p2p_price : ℚ) (look_ahead_hours : ℕ)
    (enable_proactive_buying : Bool) : ℚ × ℚ × ℚ × ℚ :=
  let r := decisionPre expFn sqrtFn production consumption current_storage max_storage
    gp hour p2p_price look_ahead_hours enable_proactive_buying
  (max 0 r.1, max 0 r.2.1, max 0 r.2.2.1, max 0 r.2.2.2)

/-- The default value of the `look_ahead_hours` parameter in the source
signature (trading.py line 50: `look_ahead_hours: int = 24`). -/
def look_ahead_hours_default : ℕ := 24

/-- The default value of the `enable_proactive_buying` parameter
(trading.py line 51). -/
def enable_proactive_buying_default : Bool := true

/-- `decide_energy_distribution` as invoked with both optional arguments
omitted, so that the source's declared defaults apply. -/
def decide_energy_distribution_with_defaults (expFn sqrtFn : ℚ → ℚ)
    (production consumption current_storage max_storage : ℚ) (gp : GridPrices)
    (hour : ℤ) (p2p_price : ℚ) : ℚ × ℚ × ℚ × ℚ :=
  decide_energy_distribution expFn sqrtFn production consumption current_storage
    max_storage gp hour p2p_price look_ahead_hours_default
    enable_proactive_buying_default

/-- `calculate_cost` (trading.py lines 314-343): grid purchases cost, grid and
P2P sales earn; the storage term is commented out in the source. -/
def calculate_cost (buy_from_grid sell_to_grid sell_to_p2p take_from_storage : ℚ)
    (gp : GridPrices) (hour : ℤ) (p2p_price : ℚ) : ℚ :=
  let current_prices := get_grid_prices_for_hour gp hour
  buy_from_grid * current_prices.purchase - sell_to_grid * current_prices.sale -
    sell_to_p2p * p2p_price

/-- The request body of the `/decision` endpoint
(`src/models/decision_models.py`); `storage_levels` maps a storage name to its
`capacity` and `current_level`. -/
structure DecisionInput where
  hour : ℤ
  production : ℚ
  consumption : ℚ
  storage_levels : List (String × ℚ × ℚ)
  grid_purchase_price : ℚ
  grid_sale_price : ℚ
  p2p_base_price : ℚ
  token_balance : ℚ
deriving DecidableEq

/-- The response body of the `/decision` endpoint
(`src/models/decision_models.py`). -/
structure DecisionOutput where
  energy_added_to_storage : ℚ
  energy_sold_to_grid : ℚ
  energy_bought_from_storages : ℚ
  energy_bought_from_grid : ℚ
deriving DecidableEq

/-- `handle_decision` (manager.py lines 37-118).  The fallible part of the
`try` block is the acquisition of the price table (`load_grid_prices`, which
raises when `grid_prices.csv` is unavailable); it is modelled by the `Except`
argument.  On success the handler sums the storage capacities and levels,
runs `decide_energy_distribution` with `look_ahead_hours=12`, and returns the
four quantities; on failure it returns the fallback of lines 111-118: zeros
everywhere except `energy_bought_from_grid = msg.consumption`. -/
def handle_decision (expFn sqrtFn : ℚ → ℚ) (msg : DecisionInput)
    (load_result : Except Unit GridPrices) : DecisionOutput :=
  match load_result with
  | .error _ =>
    { energy_added_to_storage := 0
      energy_sold_to_grid := 0
      energy_bought_from_storages := 0
      energy_bought_from_grid := msg.consumption }
  | .ok grid_prices =>
    let total_capacity := (msg.storage_levels.map fun s => s.2.1).sum
    let total_current_level := (msg.storage_levels.map fun s => s.2.2).sum
    let r := decide_energy_distribution expFn sqrtFn msg.production msg.consumption
      total_current_level total_capacity grid_prices msg.hour msg.p2p_base_price 12 true
    { energy_added_to_storage := r.1
      energy_sold_to_grid := r.2.1
      energy_bought_from_storages := r.2.2.2
      energy_bought_from_grid := r.2.2.1 }

/-- Build a full 24-row price table keyed by the CSV hour-range labels, with
`f h = (purchase, sale)` for hour `h`. -/
def mkTable (f : ℕ → ℚ × ℚ) : GridPrices :=
  (List.range 24).map fun (h : ℕ) => (parse_hour_range_from_int (h : ℤ), ⟨(f h).1, (f h).2⟩)

/-- A price table whose purchase prices have mean `-1` and population standard
deviation `5` (variance `25`), with a single spike (price `19 > 4` at hour 3)
and a current-hour (hour 0) price of `-5`. -/
def negPriceTable : GridPrices :=
  mkTable fun h =>
    (if h = 3 then 19
     else if h = 0 ∨ (12 ≤ h ∧ h ≤ 15) then -5
     else if h ≤ 11 then -3
     else if h ≤ 20 then 3
     else -1, 0)

/-- A concrete instantiation of the square-root parameter that agrees with
the real square root at the only point where `negPriceTable` needs it:
the variance of its purchase prices is exactly 25, and `sqrt 25 = 5`. -/
def sqrt25fn : ℚ → ℚ := fun q => if q = 25 then 5 else 0

/-- A price table with all purchase prices equal to `1` (so the spike list
is empty for every window) and sale price `5` at hours 13-18, `1`
elsewhere, so that the only good-sell hours are 13 or more hours after
hour 0. -/
def lateSellTable : GridPrices :=
  mkTable fun h => (1, if 13 ≤ h ∧ h ≤ 18 then 5 else 1)

/-- A price table with purchase price `3/5` and sale price `7/100` at every
hour. -/
def costTable : GridPrices :=
  mkTable fun _ => (3/5, 7/100)

/-- Normalizing the hour by `mod 24` before building the label changes
nothing, since the label builder itself normalizes. -/
theorem parse_hour_range_mod (h : ℤ) :
    parse_hour_range_from_int (h % 24) = parse_hour_range_from_int h := by
  unfold parse_hour_range_from_int
  rw [Int.emod_emod_of_dvd h (dvd_refl 24)]

/-- Price lookup only depends on the hour modulo 24. -/
theorem get_grid_prices_mod (gp : GridPrices) (h : ℤ) :
    get_grid_prices_for_hour gp (h % 24) = get_grid_prices_for_hour gp h := by
  unfold get_grid_prices_for_hour
  rw [parse_hour_range_mod]

/-- Price lookup at any integer hour equals lookup at the natural number
`(h % 24).toNat < 24`. -/
theorem get_grid_prices_toNat (gp : GridPrices) (h : ℤ) :
    get_grid_prices_for_hour gp h =
      get_grid_prices_for_hour gp (((h % 24).toNat : ℕ) : ℤ) := by
  have hnn : 0 ≤ h % 24 := Int.emod_nonneg h (by norm_num)
  rw [Int.toNat_of_nonneg hnn, get_grid_prices_mod]

/-- The purchase price fetched for any hour is one of the 24 listed purchase
prices. -/
theorem purchase_mem_allPurchasePrices (gp : GridPrices) (h : ℤ) :
    (get_grid_prices_for_hour gp h).purchase ∈ allPurchasePrices gp := by
  rw [get_grid_prices_toNat gp h]
  have hk : (h % 24).toNat < 24 := by
    have h1 : h % 24 < 24 := Int.emod_lt_of_pos h (by norm_num)
    have h2 : 0 ≤ h % 24 := Int.emod_nonneg h (by norm_num)
    omega
  unfold allPurchasePrices
  exact List.mem_map_of_mem _ (List.mem_range.mpr hk)

/-- The mean of a list of non-negative rationals is non-negative. -/
theorem listMean_nonneg (xs : List ℚ) (h : ∀ x ∈ xs, 0 ≤ x) : 0 ≤ listMean xs := by
  unfold listMean
  exact div_nonneg (List.sum_nonneg h) (by positivity)

/-- The mean of 24 copies of `c` is `c`. -/
theorem listMean_replicate (c : ℚ) : listMean (List.replicate 24 c) = c := by
  unfold listMean
  rw [List.sum_replicate, List.length_replicate, nsmul_eq_mul]
  norm_num

/-- The population variance of 24 copies of `c` is `0`. -/
theorem listVariance_replicate (c : ℚ) : listVariance (List.replicate 24 c) = 0 := by
  unfold listVariance
  rw [listMean_replicate, List.map_replicate]
  norm_num

/-- Every spike recorded over a table with non-negative purchase prices has a
non-negative price. -/
theorem upcomingSpikes_price_nonneg (gp : GridPrices) (hour : ℤ) (la : ℕ) (thr : ℚ)
    (hall : ∀ x ∈ allPurchasePrices gp, 0 ≤ x) :
    ∀ e ∈ upcomingSpikes gp hour la thr, 0 ≤ e.price := by
  intro e he
  simp only [upcomingSpikes, List.mem_filterMap, List.mem_range] at he
  obtain ⟨i, _, hi⟩ := he
  split at hi
  · cases hi
    exact hall _ (purchase_mem_allPurchasePrices gp _)
  · exact absurd hi (by simp)

/-- `calculate_proactive_buying` returns the same amount for both components,
and that amount is non-negative whenever the current price and the recorded
spike prices are non-negative. -/
theorem calculate_proactive_buying_spec (cs ms cp mp : ℚ) (spikes : List SpikeEvent)
    (cts : ℚ) (hcp : 0 ≤ cp) (hsp : ∀ e ∈ spikes, 0 ≤ e.price) :
    (calculate_proactive_buying cs ms cp mp spikes cts).1 =
        (calculate_proactive_buying cs ms cp mp spikes cts).2 ∧
      0 ≤ (calculate_proactive_buying cs ms cp mp spikes cts).1 := by
  cases spikes with
  | nil => exact ⟨rfl, le_refl 0⟩
  | cons s rest =>
    have hs : 0 ≤ s.price := hsp s (List.mem_cons_self s rest)
    simp only [calculate_proactive_buying]
    split
    · exact ⟨rfl, le_refl 0⟩
    · split
      · exact ⟨rfl, le_refl 0⟩
      · rename_i havail hratio
        refine ⟨rfl, ?_⟩
        push_neg at havail hratio
        have hsr : 0 ≤ s.price / cp := div_nonneg hs hcp
        have hratio0 : 0 ≤ (mp - cp) / mp := le_trans (by norm_num) hratio.le
        have htf : 0 ≤ (if s.hours_away < 2 ∨ 12 < s.hours_away then (3/10 : ℚ)
            else 1 - |(s.hours_away : ℚ) - 7| / 5) := by
          split
          · norm_num
          · rename_i hwin
            push_neg at hwin
            have h2 : (2 : ℚ) ≤ (s.hours_away : ℚ) := by exact_mod_cast hwin.1
            have h12 : ((s.hours_away : ℚ)) ≤ 12 := by exact_mod_cast hwin.2
            have : |(s.hours_away : ℚ) - 7| ≤ 5 := abs_le.mpr (by constructor <;> linarith)
            linarith
        have hpf : 0 ≤ min 1 (s.price / cp / 2) := le_min (by norm_num) (by positivity)
        have hcapf : 0 ≤ min 1 ((ms - cs - cts) / 20) := by
          refine le_min (by norm_num) ?_
          have : (0:ℚ) ≤ ms - cs - cts := by linarith
          positivity
        refine le_min (le_min ?_ (by linarith)) (by linarith)
        have hbf : 0 ≤ (if s.hours_away < 2 ∨ 12 < s.hours_away then (3/10 : ℚ)
            else 1 - |(s.hours_away : ℚ) - 7| / 5) * min 1 (s.price / cp / 2) *
            ((mp - cp) / mp) := by positivity
        positivity

/-- The surplus storage fill is non-negative and at most the surplus. -/
theorem surplus_store_bounds (eb capl : ℚ) (pri : Bool) (hbal : 0 ≤ eb) :
    0 ≤ surplus_store eb capl pri ∧ surplus_store eb capl pri ≤ eb := by
  unfold surplus_store
  split
  · rename_i h1
    simp only [Bool.and_eq_true, decide_eq_true_eq] at h1
    exact ⟨le_min hbal h1.2.le, min_le_left _ _⟩
  · exact ⟨le_rfl, hbal⟩

/-- The surplus branch: storage fill and grid sale are non-negative, nothing
is bought or drawn, and together the fill and the sale exhaust the surplus. -/
theorem surplus_branch_spec (eb capl : ℚ) (pri : Bool) (hbal : 0 < eb) :
    0 ≤ (surplus_branch eb capl pri).1 ∧ 0 ≤ (surplus_branch eb capl pri).2.1 ∧
      (surplus_branch eb capl pri).2.2.1 = 0 ∧ (surplus_branch eb capl pri).2.2.2 = 0 ∧
      (surplus_branch eb capl pri).1 + (surplus_branch eb capl pri).2.1 = eb := by
  obtain ⟨h0, hle⟩ := surplus_store_bounds eb capl pri hbal.le
  simp only [surplus_branch]
  refine ⟨h0, ?_, trivial, trivial, ?_⟩
  · split
    · rename_i h2; exact h2.le
    · exact le_rfl
  · split
    · ring
    · rename_i h2
      push_neg at h2
      have : eb - surplus_store eb capl pri = 0 := le_antisymm h2 (by linarith)
      linarith

/-- The deficit storage draw is non-negative and bounded by the need. -/
theorem deficit_take_bounds (en cs : ℚ) (sp use_st : Bool) (hen : 0 ≤ en) :
    0 ≤ deficit_take en cs sp use_st ∧ deficit_take en cs sp use_st ≤ en := by
  unfold deficit_take
  split
  · rename_i h1
    simp only [Bool.and_eq_true, decide_eq_true_eq] at h1
    have hc : 0 < cs := h1.2
    refine ⟨le_min ?_ hen, min_le_right _ _⟩
    split <;> linarith
  · exact ⟨le_rfl, hen⟩

/-- The deficit storage draw never exceeds the current storage level. -/
theorem deficit_take_le_storage (en cs : ℚ) (sp use_st : Bool) (hcs : 0 ≤ cs) :
    deficit_take en cs sp use_st ≤ cs := by
  unfold deficit_take
  split
  · refine le_trans (min_le_left _ _) ?_
    split
    · exact le_rfl
    · linarith
  · exact hcs

/-- The deficit purchase step: with a non-negative remaining need and a
non-negative current purchase price, the extra routed to storage and the
total purchase are non-negative and the purchase equals the remaining need
plus the extra. -/
theorem deficit_store_buy_spec (esn cs ms gpp mpp : ℚ) (h2ns : Option ℕ)
    (hesn : 0 ≤ esn) (hg : 0 ≤ gpp) :
    0 ≤ (deficit_store_buy esn cs ms gpp mpp h2ns).1 ∧
      0 ≤ (deficit_store_buy esn cs ms gpp mpp h2ns).2 ∧
      (deficit_store_buy esn cs ms gpp mpp h2ns).2 =
        esn + (deficit_store_buy esn cs ms gpp mpp h2ns).1 := by
  simp only [deficit_store_buy]
  split
  · split
    · rename_i hstill hch
      simp only [Bool.and_eq_true, decide_eq_true_eq] at hch
      have hmpos : 0 < mpp := by linarith [hch.1.1]
      have hr : 0 < (mpp - gpp) / mpp := div_pos (by linarith [hch.1.1]) hmpos
      have hx : 0 ≤ min (ms - cs) ((mpp - gpp) / mpp * 10) :=
        le_min hch.2.le (by positivity)
      exact ⟨hx, by linarith, by ring⟩
    · exact ⟨le_rfl, hesn, by ring⟩
  · rename_i hstill
    push_neg at hstill
    have : esn = 0 := le_antisymm hstill hesn
    exact ⟨le_rfl, le_rfl, by rw [this]; ring⟩

/-- The deficit branch: with a non-negative need and a non-negative current
purchase price, the storage fill, grid purchase and storage draw are
non-negative, nothing is sold, and the purchase plus the draw covers the need
plus the extra routed to storage. -/
theorem deficit_branch_spec (en cs ms gpp mpp : ℚ) (sp use_st : Bool)
    (h2ns : Option ℕ) (hen : 0 ≤ en) (hg : 0 ≤ gpp) :
    0 ≤ (deficit_branch en cs ms gpp mpp sp use_st h2ns).1 ∧
      (deficit_branch en cs ms gpp mpp sp use_st h2ns).2.1 = 0 ∧
      0 ≤ (deficit_branch en cs ms gpp mpp sp use_st h2ns).2.2.1 ∧
      0 ≤ (deficit_branch en cs ms gpp mpp sp use_st h2ns).2.2.2 ∧
      (deficit_branch en cs ms gpp mpp sp use_st h2ns).2.2.1 +
          (deficit_branch en cs ms gpp mpp sp use_st h2ns).2.2.2 =
        en + (deficit_branch en cs ms gpp mpp sp use_st h2ns).1 := by
  obtain ⟨ht0, htle⟩ := deficit_take_bounds en cs sp use_st hen
  obtain ⟨hs0, hb0, hsum⟩ := deficit_store_buy_spec (en - deficit_take en cs sp use_st)
    cs ms gpp mpp h2ns (by linarith) hg
  simp only [deficit_branch]
  exact ⟨hs0, trivial, hb0, ht0, by linarith⟩

/-- The allocation policy: when the mean and current purchase prices are
non-negative, all four base quantities are non-negative and the energy
balance is conserved: production plus grid purchase plus storage draw equals
consumption plus storage fill plus grid sale. -/
theorem decision_core_spec (expFn : ℚ → ℚ)
    (p c cs ms pp gpp gsp mpp thr : ℚ) (h2ns : Option ℕ) (gsh : List ℤ)
    (hg : 0 ≤ gpp) :
    0 ≤ (decision_core expFn p c cs ms pp gpp gsp mpp thr h2ns gsh).1 ∧
      0 ≤ (decision_core expFn p c cs ms pp gpp gsp mpp thr h2ns gsh).2.1 ∧
      0 ≤ (decision_core expFn p c cs ms pp gpp gsp mpp thr h2ns gsh).2.2.1 ∧
      0 ≤ (decision_core expFn p c cs ms pp gpp gsp mpp thr h2ns gsh).2.2.2 ∧
      p + (decision_core expFn p c cs ms pp gpp gsp mpp thr h2ns gsh).2.2.1 +
          (decision_core expFn p c cs ms pp gpp gsp mpp thr h2ns gsh).2.2.2 =
        c + (decision_core expFn p c cs ms pp gpp gsp mpp thr h2ns gsh).1 +
          (decision_core expFn p c cs ms pp gpp gsp mpp thr h2ns gsh).2.1 := by
  simp only [decision_core]
  split
  · rename_i hbal
    have hs := surplus_branch_spec (p - c) (ms - cs)
      (should_prioritize_storage expFn cs ms pp gsp h2ns gsh) hbal
    exact ⟨hs.1, hs.2.1, hs.2.2.1.ge, hs.2.2.2.1.ge, by
      have h3 := hs.2.2.1
      have h4 := hs.2.2.2.1
      have h5 := hs.2.2.2.2
      linarith⟩
  · rename_i hbal
    push_neg at hbal
    have hd := deficit_branch_spec (-(p - c)) cs ms gpp mpp
      (decide (thr < gpp)) (should_use_storage cs ms gpp thr h2ns) h2ns
      (by linarith) hg
    exact ⟨hd.1, hd.2.1.ge, hd.2.2.1, hd.2.2.2.1, by
      have h2 := hd.2.1
      have h5 := hd.2.2.2.2
      linarith⟩

/-- The allocation policy never draws more than the current storage level. -/
theorem decision_core_take_le (expFn : ℚ → ℚ)
    (p c cs ms pp gpp gsp mpp thr : ℚ) (h2ns : Option ℕ) (gsh : List ℤ)
    (hcs : 0 ≤ cs) :
    (decision_core expFn p c cs ms pp gpp gsp mpp thr h2ns gsh).2.2.2 ≤ cs := by
  simp only [decision_core, surplus_branch, deficit_branch]
  split
  · exact hcs
  · exact deficit_take_le_storage _ _ _ _ hcs

/-- With production equal to consumption, the allocation policy allocates
nothing at all. -/
theorem decision_core_balanced (expFn : ℚ → ℚ)
    (p c cs ms pp gpp gsp mpp thr : ℚ) (h2ns : Option ℕ) (gsh : List ℤ)
    (h : p = c) :
    decision_core expFn p c cs ms pp gpp gsp mpp thr h2ns gsh = (0, 0, 0, 0) := by
  subst h
  have hT : ∀ sp use_st : Bool, deficit_take 0 cs sp use_st = 0 := by
    intro sp use_st
    obtain ⟨h1, h2⟩ := deficit_take_bounds 0 cs sp use_st le_rfl
    exact le_antisymm h2 h1
  have hSB : ∀ h2 : Option ℕ, deficit_store_buy 0 cs ms gpp mpp h2 = (0, 0) := by
    intro h2
    unfold deficit_store_buy
    rw [if_neg (lt_irrefl 0)]
  simp only [decision_core, deficit_branch, sub_self, neg_zero, lt_irrefl, if_false,
    hT, sub_zero, hSB]

/-- Arithmetic of the final combination step: adding the same non-negative
extra to storage fill and grid purchase and then clamping non-negative
quantities preserves the conservation equation. -/
theorem clamp_conserve (p c : ℚ) (B : ℚ × ℚ × ℚ × ℚ) (E : ℚ × ℚ)
    (h1 : 0 ≤ B.1) (h2 : 0 ≤ B.2.1) (h3 : 0 ≤ B.2.2.1) (h4 : 0 ≤ B.2.2.2)
    (h5 : p + B.2.2.1 + B.2.2.2 = c + B.1 + B.2.1)
    (hE : E.1 = E.2) (hE1 : 0 ≤ E.1) :
    p + max 0 (B.2.2.1 + E.1) + max 0 B.2.2.2 =
      c + max 0 (B.1 + E.2) + max 0 B.2.1 := by
  rw [max_eq_right h2, max_eq_right h4,
    max_eq_right (by linarith : (0:ℚ) ≤ B.2.2.1 + E.1),
    max_eq_right (by rw [← hE]; linarith : (0:ℚ) ≤ B.1 + E.2)]
  rw [← hE]
  linarith

/-- All 24 purchase prices of `lateSellTable` are `1`. -/
theorem lateSellTable_purchase :
    allPurchasePrices lateSellTable = List.replicate 24 1 := rfl

/-- The purchase price of `lateSellTable` at any hour is `1`. -/
theorem lateSellTable_purchase_at (h : ℤ) :
    (get_grid_prices_for_hour lateSellTable h).purchase = 1 :=
  List.eq_of_mem_replicate
    (lateSellTable_purchase ▸ purchase_mem_allPurchasePrices lateSellTable h)

/-- The spike threshold of `lateSellTable` is its constant purchase price. -/
theorem lateSellTable_threshold :
    purchaseSpikeThreshold (fun _ => 0) lateSellTable = 1 := by
  unfold purchaseSpikeThreshold listStd
  rw [lateSellTable_purchase, listMean_replicate]
  norm_num

/-- The sale prices of `lateSellTable` in ascending order. -/
theorem lateSellTable_sale_sorted :
    List.insertionSort (· ≤ ·) (allSalePrices lateSellTable) =
      [1, 1, 1, 1, 1, 1, 1, 1, 1, 1, 1, 1, 1, 1, 1, 1, 1, 1, 5, 5, 5, 5, 5, 5] := rfl

/-- The 75th sale-price percentile of `lateSellTable` is `2`. -/
theorem lateSellTable_p75 : percentile75 (allSalePrices lateSellTable) = 2 := by
  simp only [percentile75]
  rw [lateSellTable_sale_sorted]
  norm_num [List.getD_cons_zero, List.getD_cons_succ]

/-- `lateSellTable` has no spikes in any look-ahead window. -/
theorem lateSellTable_spikes (hour : ℤ) (la : ℕ) :
    upcomingSpikes lateSellTable hour la 1 = [] := by
  unfold upcomingSpikes
  rw [List.filterMap_eq_nil_iff]
  intro i _
  simp only
  rw [lateSellTable_purchase_at]
  rw [if_neg (lt_irrefl _)]

/-- Scanning 24 hours ahead from hour 0 finds the good-sell hours 13-18. -/
theorem lateSellTable_goodSell24 :
    goodSellHours lateSellTable 0 24 2 = [13, 14, 15, 16, 17, 18] := rfl

/-- Scanning only 12 hours ahead from hour 0 finds no good-sell hour. -/
theorem lateSellTable_goodSell12 :
    goodSellHours lateSellTable 0 12 2 = [] := rfl

/-- With the 24-hour window the allocation policy stores the 30 kWh surplus
(good-sell hours were found). -/
theorem lateSellTable_core24 :
    coreOf (fun _ => 0) (fun _ => 0) 50 20 0 100 lateSellTable 0 1 24 =
      (30, 0, 0, 0) := by
  unfold coreOf
  rw [lateSellTable_threshold, lateSellTable_p75, lateSellTable_spikes,
    lateSellTable_goodSell24,
    show get_grid_prices_for_hour lateSellTable 0 = ⟨1, 1⟩ from rfl,
    lateSellTable_purchase, listMean_replicate]
  norm_num [decision_core, surplus_branch, surplus_store, should_prioritize_storage,
    hoursToNextSpike, ltOpt, gtOpt, Bool.or_eq_true, Bool.and_eq_true,
    decide_eq_true_eq, min_def, max_def]

/-- With the 12-hour window the allocation policy sells the 30 kWh surplus
(no good-sell hours in sight). -/
theorem lateSellTable_core12 :
    coreOf (fun _ => 0) (fun _ => 0) 50 20 0 100 lateSellTable 0 1 12 =
      (0, 30, 0, 0) := by
  unfold coreOf
  rw [lateSellTable_threshold, lateSellTable_p75, lateSellTable_spikes,
    lateSellTable_goodSell12,
    show get_grid_prices_for_hour lateSellTable 0 = ⟨1, 1⟩ from rfl,
    lateSellTable_purchase, listMean_replicate]
  norm_num [decision_core, surplus_branch, surplus_store, should_prioritize_storage,
    hoursToNextSpike, ltOpt, gtOpt, Bool.or_eq_true, Bool.and_eq_true,
    decide_eq_true_eq, min_def, max_def]

/-- No spikes, hence no proactive buying over `lateSellTable` (24-hour window). -/
theorem lateSellTable_extra24 (cts : ℚ) :
    extraOf (fun _ => 0) 0 100 lateSellTable 0 24 true cts = (0, 0) := by
  unfold extraOf
  rw [lateSellTable_threshold, lateSellTable_spikes]
  rfl

/-- No spikes, hence no proactive buying over `lateSellTable` (12-hour window). -/
theorem lateSellTable_extra12 (cts : ℚ) :
    extraOf (fun _ => 0) 0 100 lateSellTable 0 12 true cts = (0, 0) := by
  unfold extraOf
  rw [lateSellTable_threshold, lateSellTable_spikes]
  rfl

/-- The purchase prices of `negPriceTable`, hour by hour. -/
theorem negPriceTable_purchase :
    allPurchasePrices negPriceTable =
      [-5, -3, -3, 19, -3, -3, -3, -3, -3, -3, -3, -3,
        -5, -5, -5, -5, 3, 3, 3, 3, 3, -1, -1, -1] := rfl

/-- The mean purchase price of `negPriceTable` is `-1`. -/
theorem negPriceTable_mean : listMean (allPurchasePrices negPriceTable) = -1 := by
  rw [negPriceTable_purchase]
  norm_num [listMean]

/-- The purchase-price variance of `negPriceTable` is `25` (a perfect
square, so its real standard deviation is exactly `5`). -/
theorem negPriceTable_variance :
    listVariance (allPurchasePrices negPriceTable) = 25 := by
  rw [negPriceTable_purchase]
  norm_num [listVariance, listMean]

/-- The spike threshold of `negPriceTable` is `-1 + 5 = 4`. -/
theorem negPriceTable_threshold :
    purchaseSpikeThreshold sqrt25fn negPriceTable = 4 := by
  unfold purchaseSpikeThreshold listStd
  rw [negPriceTable_mean, negPriceTable_variance]
  norm_num [sqrt25fn]

/-- The only spike of `negPriceTable` seen from hour 0 is price 19 at hour 3,
three hours away. -/
theorem negPriceTable_spikes :
    upcomingSpikes negPriceTable 0 24 4 = [⟨3, 19, 3⟩] := rfl

/-- Over `negPriceTable` the deficit branch computes a negative extra buy:
the base allocation is `(-40, 0, -35, 0)`. -/
theorem negPriceTable_core :
    coreOf (fun _ => 1) sqrt25fn 0 5 50 100 negPriceTable 0 0 24 =
      (-40, 0, -35, 0) := by
  unfold coreOf
  rw [negPriceTable_threshold, negPriceTable_spikes,
    show get_grid_prices_for_hour negPriceTable 0 = ⟨-5, 0⟩ from rfl,
    negPriceTable_mean]
  norm_num [decision_core, deficit_branch, deficit_take, deficit_store_buy,
    should_use_storage, hoursToNextSpike, ltOpt, gtOpt, Bool.or_eq_true,
    Bool.and_eq_true, decide_eq_true_eq, min_def, max_def]

/-- Proactive buying declines over `negPriceTable` (the price advantage is
negative). -/
theorem negPriceTable_extra :
    extraOf sqrt25fn 50 100 negPriceTable 0 24 true (-40) = (0, 0) := by
  unfold extraOf
  rw [negPriceTable_threshold, negPriceTable_spikes,
    show get_grid_prices_for_hour negPriceTable 0 = ⟨-5, 0⟩ from rfl,
    negPriceTable_mean]
  norm_num [calculate_proactive_buying, min_def, max_def]

/-- C1: for every input to `decide_energy_distribution` with production,
consumption, current storage and maximum storage all non-negative (any hour,
P2P price, price table, look-ahead and proactive flag), each of the four
returned quantities — energy_to_storage, sell_to_grid, buy_from_grid,
take_from_storage — is non-negative, thanks to the final clamps of
trading.py lines 218-222. -/
theorem decide_energy_distribution_nonneg (expFn sqrtFn : ℚ → ℚ)
    (production consumption current_storage max_storage : ℚ) (gp : GridPrices)
    (hour : ℤ) (p2p_price : ℚ) (look_ahead_hours : ℕ)
    (enable_proactive_buying : Bool)
    (hp : 0 ≤ production) (hc : 0 ≤ consumption) (hcs : 0 ≤ current_storage)
    (hms : 0 ≤ max_storage) :
    0 ≤ (decide_energy_distribution expFn sqrtFn production consumption
        current_storage max_storage gp hour p2p_price look_ahead_hours
        enable_proactive_buying).1 ∧
      0 ≤ (decide_energy_distribution expFn sqrtFn production consumption
        current_storage max_storage gp hour p2p_price look_ahead_hours
        enable_proactive_buying).2.1 ∧
      0 ≤ (decide_energy_distribution expFn sqrtFn production consumption
        current_storage max_storage gp hour p2p_price look_ahead_hours
        enable_proactive_buying).2.2.1 ∧
      0 ≤ (decide_energy_distribution expFn sqrtFn production consumption
        current_storage max_storage gp hour p2p_price look_ahead_hours
        enable_proactive_buying).2.2.2 :=
  ⟨le_max_left 0 _, le_max_left 0 _, le_max_left 0 _, le_max_left 0 _⟩

/-- Witness for C1 at a concrete input. -/
theorem decide_energy_distribution_nonneg_witness :
    0 ≤ (decide_energy_distribution (fun _ => 1) (fun _ => 0) 1 2 3 10 [] 5 1
        24 true).1 ∧
      0 ≤ (decide_energy_distribution (fun _ => 1) (fun _ => 0) 1 2 3 10 [] 5 1
        24 true).2.1 ∧
      0 ≤ (decide_energy_distribution (fun _ => 1) (fun _ => 0) 1 2 3 10 [] 5 1
        24 true).2.2.1 ∧
      0 ≤ (decide_energy_distribution (fun _ => 1) (fun _ => 0) 1 2 3 10 [] 5 1
        24 true).2.2.2 :=
  decide_energy_distribution_nonneg (fun _ => 1) (fun _ => 0) 1 2 3 10 [] 5 1
    24 true (by norm_num) (by norm_num) (by norm_num) (by norm_num)

/-- C2, counterexample: on an internal failure (here the price table being
unavailable) with production 10 and consumption 15, the handler buys the full
consumption 15 from the grid, not the deficit 15 - 10 = 5 claimed by the
spec. -/
theorem handle_decision_fallback_counterexample :
    handle_decision (fun _ => 0) (fun _ => 0) ⟨0, 10, 15, [], 0, 0, 0, 0⟩
        (Except.error ()) = ⟨0, 0, 0, 15⟩ ∧
      (15 : ℚ) ≠ 15 - 10 := ⟨rfl, by norm_num⟩

/-- C2, amended: on any internal failure the handler returns the structured
fallback in which storage fill, grid sale and storage draw are all zero and
the grid purchase equals the full reported consumption (production is not
subtracted). -/
theorem handle_decision_fallback (expFn sqrtFn : ℚ → ℚ) (msg : DecisionInput)
    (u : Unit) :
    handle_decision expFn sqrtFn msg (Except.error u) =
      ⟨0, 0, 0, msg.consumption⟩ := rfl

/-- C3, counterexample: with the `lateSellTable` (no spikes, good sell hours
only 13-18 hours ahead of hour 0), production 50, consumption 20 and empty
storage of capacity 100, calling `decide_energy_distribution` with the
defaulted parameters stores the 30 kWh surplus, while a 12-hour look-ahead
window sells it: the defaulted call does not use a 12-hour window. -/
theorem look_ahead_default_counterexample :
    decide_energy_distribution_with_defaults (fun _ => 0) (fun _ => 0)
        50 20 0 100 lateSellTable 0 1 = (30, 0, 0, 0) ∧
      decide_energy_distribution (fun _ => 0) (fun _ => 0)
        50 20 0 100 lateSellTable 0 1 12 true = (0, 30, 0, 0) ∧
      ((30 : ℚ), (0 : ℚ), (0 : ℚ), (0 : ℚ)) ≠ ((0 : ℚ), (30 : ℚ), (0 : ℚ), (0 : ℚ)) := by
  refine ⟨?_, ?_, by norm_num⟩
  · simp only [decide_energy_distribution_with_defaults, decide_energy_distribution,
      decisionPre, look_ahead_hours_default, enable_proactive_buying_default]
    rw [lateSellTable_core24, lateSellTable_extra24]
    norm_num [max_def]
  · simp only [decide_energy_distribution, decisionPre]
    rw [lateSellTable_core12, lateSellTable_extra12]
    norm_num [max_def]

/-- C3, amended: when the caller omits the optional arguments, the look-ahead
window used for spike detection is the declared default of 24 hours
(trading.py line 50), with proactive buying enabled. -/
theorem look_ahead_default_is_24 (expFn sqrtFn : ℚ → ℚ)
    (production consumption current_storage max_storage : ℚ) (gp : GridPrices)
    (hour : ℤ) (p2p_price : ℚ) :
    decide_energy_distribution_with_defaults expFn sqrtFn production consumption
        current_storage max_storage gp hour p2p_price =
      decide_energy_distribution expFn sqrtFn production consumption
        current_storage max_storage gp hour p2p_price 24 true := rfl

/-- C4: `calculate_cost` returns exactly
`buy * purchase_price - sell * sale_price - p2p_quantity * p2p_price`
for every input, and in particular 10 kWh bought at purchase price 0.6 with
no sales costs 6.0. -/
theorem calculate_cost_formula :
    (∀ (b s p2pq t : ℚ) (gp : GridPrices) (hour : ℤ) (pp : ℚ),
        calculate_cost b s p2pq t gp hour pp =
          b * (get_grid_prices_for_hour gp hour).purchase -
            s * (get_grid_prices_for_hour gp hour).sale - p2pq * pp) ∧
      calculate_cost 10 0 0 0 costTable 0 0 = 6 := by
  refine ⟨fun _ _ _ _ _ _ _ => rfl, ?_⟩
  unfold calculate_cost
  rw [show get_grid_prices_for_hour costTable 0 = ⟨3/5, 7/100⟩ from rfl]
  norm_num

/-- C5: the price lookup is total — it returns a value for every table and
hour — and whenever the table has no entry for the normalized hour it returns
the fallback entry with purchase 0.5 and sale 0.25 (the miss is only
logged in the source, never raised). -/
theorem get_grid_prices_fallback (gp : GridPrices) (hour : ℤ)
    (h : gp.lookup (parse_hour_range_from_int hour) = none) :
    get_grid_prices_for_hour gp hour = ⟨1/2, 1/4⟩ := by
  unfold get_grid_prices_for_hour
  rw [h]

/-- Witness for C5: the empty table misses every hour. -/
theorem get_grid_prices_fallback_witness :
    ([] : GridPrices).lookup (parse_hour_range_from_int 7) = none ∧
      get_grid_prices_for_hour [] 7 = ⟨1/2, 1/4⟩ :=
  ⟨rfl, get_grid_prices_fallback [] 7 rfl⟩

/-- C6: for every price table and every integer hour, including out-of-range
hours such as 25 or -1, the lookup result equals the result of querying the
hour normalized modulo 24. -/
theorem get_grid_prices_hour_mod (gp : GridPrices) (hour : ℤ) :
    get_grid_prices_for_hour gp hour = get_grid_prices_for_hour gp (hour % 24) :=
  (get_grid_prices_mod gp hour).symm

/-- C7: over a price table whose 24 purchase prices are all equal, the
population standard deviation is 0 (given that the square root of 0 is 0),
the spike threshold equals the mean, no hour strictly exceeds it, so the
spike list is empty for every current hour and look-ahead window, and
consequently `calculate_proactive_buying` returns `(0, 0)` for every storage
state and price. -/
theorem degenerate_table_no_spikes (gp : GridPrices) (cst : ℚ) (sqrtFn : ℚ → ℚ)
    (hgp : allPurchasePrices gp = List.replicate 24 cst) (hs : sqrtFn 0 = 0) :
    listStd sqrtFn (allPurchasePrices gp) = 0 ∧
      purchaseSpikeThreshold sqrtFn gp = listMean (allPurchasePrices gp) ∧
      (∀ (hour : ℤ) (la : ℕ),
        upcomingSpikes gp hour la (purchaseSpikeThreshold sqrtFn gp) = []) ∧
      (∀ (hour : ℤ) (la : ℕ) (cs ms cp mp cts : ℚ),
        calculate_proactive_buying cs ms cp mp
          (upcomingSpikes gp hour la (purchaseSpikeThreshold sqrtFn gp)) cts =
          (0, 0)) := by
  have hmean : listMean (allPurchasePrices gp) = cst := by
    rw [hgp, listMean_replicate]
  have hvar : listVariance (allPurchasePrices gp) = 0 := by
    unfold listVariance
    rw [hgp, listMean_replicate, List.map_replicate]
    norm_num
  have hstd : listStd sqrtFn (allPurchasePrices gp) = 0 := by
    unfold listStd
    rw [hvar, hs]
  have hthr : purchaseSpikeThreshold sqrtFn gp = listMean (allPurchasePrices gp) := by
    unfold purchaseSpikeThreshold
    rw [hstd, add_zero]
  have hpoint : ∀ h : ℤ, (get_grid_prices_for_hour gp h).purchase = cst := by
    intro h
    exact List.eq_of_mem_replicate (hgp ▸ purchase_mem_allPurchasePrices gp h)
  have hspikes : ∀ (hour : ℤ) (la : ℕ),
      upcomingSpikes gp hour la (purchaseSpikeThreshold sqrtFn gp) = [] := by
    intro hour la
    unfold upcomingSpikes
    rw [List.filterMap_eq_nil_iff]
    intro i _
    rw [if_neg]
    rw [hthr, hmean, hpoint]
    exact lt_irrefl cst
  refine ⟨hstd, hthr, hspikes, ?_⟩
  intro hour la cs ms cp mp cts
  rw [hspikes hour la]
  rfl

/-- Witness for C7: the empty table, for which every lookup falls back to
purchase price 0.5, together with a square-root function with value 0 at 0. -/
theorem degenerate_table_no_spikes_witness :
    allPurchasePrices ([] : GridPrices) = List.replicate 24 (1/2) ∧
      ((fun _ : ℚ => (0 : ℚ)) 0 = 0) ∧
      (listStd (fun _ => 0) (allPurchasePrices ([] : GridPrices)) = 0 ∧
        purchaseSpikeThreshold (fun _ => 0) ([] : GridPrices) =
          listMean (allPurchasePrices ([] : GridPrices)) ∧
        (∀ (hour : ℤ) (la : ℕ),
          upcomingSpikes [] hour la (purchaseSpikeThreshold (fun _ => 0) []) = []) ∧
        (∀ (hour : ℤ) (la : ℕ) (cs ms cp mp cts : ℚ),
          calculate_proactive_buying cs ms cp mp
            (upcomingSpikes [] hour la (purchaseSpikeThreshold (fun _ => 0) []))
            cts = (0, 0))) :=
  ⟨rfl, rfl, degenerate_table_no_spikes [] (1/2) (fun _ => 0) rfl rfl⟩

/-- C8: with production equal to consumption and proactive buying disabled
(so only the allocation policy's base branch acts), every quantity of the
decision is zero. -/
theorem decide_balanced_zero (expFn sqrtFn : ℚ → ℚ)
    (production consumption current_storage max_storage : ℚ) (gp : GridPrices)
    (hour : ℤ) (p2p_price : ℚ) (look_ahead_hours : ℕ)
    (h : production = consumption) :
    decide_energy_distribution expFn sqrtFn production consumption
      current_storage max_storage gp hour p2p_price look_ahead_hours false =
      (0, 0, 0, 0) := by
  have hB : coreOf expFn sqrtFn production consumption current_storage max_storage
      gp hour p2p_price look_ahead_hours = (0, 0, 0, 0) :=
    decision_core_balanced expFn production consumption current_storage max_storage
      p2p_price _ _ _ _ _ _ h
  have hE : ∀ x : ℚ, extraOf sqrtFn current_storage max_storage gp hour
      look_ahead_hours false x = (0, 0) := fun _ => rfl
  simp only [decide_energy_distribution, decisionPre, hB, hE]
  norm_num

/-- Witness for C8 at a concrete balanced input. -/
theorem decide_balanced_zero_witness :
    (5 : ℚ) = 5 ∧
      decide_energy_distribution (fun _ => 1) (fun _ => 0) 5 5 3 10 [] 2 1 24
        false = (0, 0, 0, 0) :=
  ⟨rfl, decide_balanced_zero (fun _ => 1) (fun _ => 0) 5 5 3 10 [] 2 1 24 rfl⟩

/-- C9: with a non-negative current storage level, the storage draw returned
by `decide_energy_distribution` never exceeds the current storage level (the
spike-hour cap is the full storage, the off-spike cap is half of it). -/
theorem decide_take_le_storage (expFn sqrtFn : ℚ → ℚ)
    (production consumption current_storage max_storage : ℚ) (gp : GridPrices)
    (hour : ℤ) (p2p_price : ℚ) (look_ahead_hours : ℕ)
    (enable_proactive_buying : Bool) (hcs : 0 ≤ current_storage) :
    (decide_energy_distribution expFn sqrtFn production consumption
        current_storage max_storage gp hour p2p_price look_ahead_hours
        enable_proactive_buying).2.2.2 ≤ current_storage := by
  have hT : (coreOf expFn sqrtFn production consumption current_storage max_storage
      gp hour p2p_price look_ahead_hours).2.2.2 ≤ current_storage :=
    decision_core_take_le expFn production consumption current_storage max_storage
      p2p_price _ _ _ _ _ _ hcs
  exact max_le hcs hT

/-- Witness for C9 at a concrete input. -/
theorem decide_take_le_storage_witness :
    (decide_energy_distribution (fun _ => 1) (fun _ => 0) 0 7 2 10 [] 3 1 24
        true).2.2.2 ≤ 2 :=
  decide_take_le_storage (fun _ => 1) (fun _ => 0) 0 7 2 10 [] 3 1 24 true
    (by norm_num)

/-- C10, counterexample: with the `negPriceTable` (negative purchase prices
of mean -1 but a spike of 19), production 0, consumption 5, storage 50 of
100, hour 0, the cheap-price extra buy is negative and the final clamps zero
everything out, so the claimed conservation equation
`production + buy + take = consumption + store + sell` fails: 0 ≠ 5. -/
theorem decide_conservation_counterexample :
    decide_energy_distribution (fun _ => 1) sqrt25fn
        0 5 50 100 negPriceTable 0 0 24 true = (0, 0, 0, 0) ∧
      (0 : ℚ) + 0 + 0 ≠ 5 + 0 + 0 := by
  refine ⟨?_, by norm_num⟩
  simp only [decide_energy_distribution, decisionPre]
  rw [negPriceTable_core]
  norm_num [negPriceTable_extra, max_def]

/-- C10, amended: energy is conserved —
`production + buy_from_grid + take_from_storage =
consumption + energy_to_storage + sell_to_grid` — for every input with
production, consumption, current storage and maximum storage non-negative,
provided additionally that all 24 purchase prices of the table are
non-negative. -/
theorem decide_conserves_energy (expFn sqrtFn : ℚ → ℚ)
    (production consumption current_storage max_storage : ℚ) (gp : GridPrices)
    (hour : ℤ) (p2p_price : ℚ) (look_ahead_hours : ℕ)
    (enable_proactive_buying : Bool)
    (hp : 0 ≤ production) (hc : 0 ≤ consumption) (hcs : 0 ≤ current_storage)
    (hms : 0 ≤ max_storage)
    (hprice : ∀ x ∈ allPurchasePrices gp, 0 ≤ x) :
    production +
        (decide_energy_distribution expFn sqrtFn production consumption
          current_storage max_storage gp hour p2p_price look_ahead_hours
          enable_proactive_buying).2.2.1 +
        (decide_energy_distribution expFn sqrtFn production consumption
          current_storage max_storage gp hour p2p_price look_ahead_hours
          enable_proactive_buying).2.2.2 =
      consumption +
        (decide_energy_distribution expFn sqrtFn production consumption
          current_storage max_storage gp hour p2p_price look_ahead_hours
          enable_proactive_buying).1 +
        (decide_energy_distribution expFn sqrtFn production consumption
          current_storage max_storage gp hour p2p_price look_ahead_hours
          enable_proactive_buying).2.1 := by
  have hg : 0 ≤ (get_grid_prices_for_hour gp hour).purchase :=
    hprice _ (purchase_mem_allPurchasePrices gp hour)
  obtain ⟨h1, h2, h3, h4, h5⟩ := decision_core_spec expFn production consumption
    current_storage max_storage p2p_price
    (get_grid_prices_for_hour gp hour).purchase
    (get_grid_prices_for_hour gp hour).sale
    (listMean (allPurchasePrices gp)) (purchaseSpikeThreshold sqrtFn gp)
    (hoursToNextSpike (upcomingSpikes gp hour look_ahead_hours
      (purchaseSpikeThreshold sqrtFn gp)))
    (goodSellHours gp hour look_ahead_hours (percentile75 (allSalePrices gp))) hg
  have hEspec : (extraOf sqrtFn current_storage max_storage gp hour look_ahead_hours
        enable_proactive_buying
        (coreOf expFn sqrtFn production consumption current_storage max_storage
          gp hour p2p_price look_ahead_hours).1).1 =
      (extraOf sqrtFn current_storage max_storage gp hour look_ahead_hours
        enable_proactive_buying
        (coreOf expFn sqrtFn production consumption current_storage max_storage
          gp hour p2p_price look_ahead_hours).1).2 ∧
      0 ≤ (extraOf sqrtFn current_storage max_storage gp hour look_ahead_hours
        enable_proactive_buying
        (coreOf expFn sqrtFn production consumption current_storage max_storage
          gp hour p2p_price look_ahead_hours).1).1 := by
    unfold extraOf
    cases enable_proactive_buying with
    | false => exact ⟨rfl, le_rfl⟩
    | true =>
      exact calculate_proactive_buying_spec _ _ _ _ _ _ hg
        (upcomingSpikes_price_nonneg gp hour look_ahead_hours _ hprice)
  exact clamp_conserve production consumption
    (coreOf expFn sqrtFn production consumption current_storage max_storage
      gp hour p2p_price look_ahead_hours)
    (extraOf sqrtFn current_storage max_storage gp hour look_ahead_hours
      enable_proactive_buying
      (coreOf expFn sqrtFn production consumption current_storage max_storage
        gp hour p2p_price look_ahead_hours).1)
    h1 h2 h3 h4 h5 hEspec.1 hEspec.2

/-- Witness for C10 (amended) at a concrete input over the empty table, whose
24 fallback purchase prices are all 0.5 and hence non-negative. -/
theorem decide_conserves_energy_witness :
    (0 : ℚ) ≤ 2 ∧ (0 : ℚ) ≤ 3 ∧ (0 : ℚ) ≤ 1 ∧ (0 : ℚ) ≤ 10 ∧
      (∀ x ∈ allPurchasePrices ([] : GridPrices), 0 ≤ x) ∧
      2 + (decide_energy_distribution (fun _ => 1) (fun _ => 0) 2 3 1 10 [] 0 1
          24 true).2.2.1 +
        (decide_energy_distribution (fun _ => 1) (fun _ => 0) 2 3 1 10 [] 0 1
          24 true).2.2.2 =
      3 + (decide_energy_distribution (fun _ => 1) (fun _ => 0) 2 3 1 10 [] 0 1
          24 true).1 +
        (decide_energy_distribution (fun _ => 1) (fun _ => 0) 2 3 1 10 [] 0 1
          24 true).2.1 :=
  have hall : ∀ x ∈ allPurchasePrices ([] : GridPrices), 0 ≤ x := by
    intro x hx
    rw [show allPurchasePrices ([] : GridPrices) = List.replicate 24 (1/2) from rfl]
      at hx
    rw [List.eq_of_mem_replicate hx]
    norm_num
  ⟨by norm_num, by norm_num, by norm_num, by norm_num, hall,
    decide_conserves_energy (fun _ => 1) (fun _ => 0) 2 3 1 10 [] 0 1 24 true
      (by norm_num) (by norm_num) (by norm_num) (by norm_num) hall⟩

end EnergyAgent
